import Mathlib

/-!
Verification of the journai_backend entry-ingestion pipeline.

This file is a shallow embedding of `src/main.rs` and `src/routes.rs`:
the HTTP handlers `create_journal_entry`, `delete_journal_entry`, the data
types `JournalEntry`, `CreateJournalEntry`, `DeleteJournalEntry`, the
error enums, and the MongoDB collection with the unique index on `date`
created in `app()`.  External capabilities (the OpenAI chat service, the
serde_json parser, transport faults of the MongoDB driver) are modelled
as an explicit environment; the persistent collection is modelled as a
list of BSON documents; the Europe/Paris timezone used by the merge
branch is modelled from the tz database that the chrono-tz crate embeds.
-/

set_option maxRecDepth 8000

/-! ## Calendar dates (chrono::NaiveDate) -/

/-- Model of `chrono::NaiveDate`: a proleptic Gregorian calendar date.
`year`/`month`/`day` are kept as plain components; validity of the
components is irrelevant to every claim below. -/
structure NaiveDate where
  year : Int
  month : Nat
  day : Nat
deriving DecidableEq, Repr

/-- Days since 1970-01-01 of a civil date (the standard days-from-civil
computation used to place a date on the epoch time line). -/
def NaiveDate.toDays (d : NaiveDate) : Int :=
  let y : Int := if d.month ≤ 2 then d.year - 1 else d.year
  let era : Int := y.ediv 400
  let yoe : Int := y - era * 400
  let mp : Int := (Int.ofNat d.month + 9).emod 12
  let doy : Int := (153 * mp + 2).ediv 5 + Int.ofNat d.day - 1
  let doe : Int := yoe * 365 + yoe.ediv 4 - yoe.ediv 100 + doy
  era * 146097 + doe - 719468

/-- Zero-padding to two digits, as in chrono's date display. -/
def pad2 (n : Nat) : String :=
  if n < 10 then "0" ++ toString n else toString n

/-- Zero-padding to four digits, as in chrono's year display. -/
def pad4 (n : Nat) : String :=
  if n < 10 then "000" ++ toString n
  else if n < 100 then "00" ++ toString n
  else if n < 1000 then "0" ++ toString n
  else toString n

/-- Model of the year part of `chrono::NaiveDate`'s `Display`: years in
0..=9999 are printed as four zero-padded digits, other years carry an
explicit sign and are padded to four digits. -/
def formatYear (y : Int) : String :=
  if 0 ≤ y ∧ y ≤ 9999 then pad4 y.toNat
  else if y < 0 then "-" ++ pad4 (-y).toNat
  else "+" ++ pad4 y.toNat

/-- Model of `chrono::NaiveDate`'s `Display` (ISO 8601 `%Y-%m-%d`), used
by `format!` in the user message and by serde serialization of
`NaiveDate`. -/
def formatDate (d : NaiveDate) : String :=
  formatYear d.year ++ "-" ++ pad2 d.month ++ "-" ++ pad2 d.day

/-- Model of `chrono::NaiveDateTime`: a date plus a number of seconds
into the day. -/
structure NaiveDateTime where
  date : NaiveDate
  secondsOfDay : Nat
deriving DecidableEq, Repr

/-- Model of `NaiveDate::and_hms_opt`: `Some` exactly when the
hour/minute/second components form a valid time of day. -/
def NaiveDate.and_hms_opt (d : NaiveDate) (h m s : Nat) : Option NaiveDateTime :=
  if h ≤ 23 ∧ m ≤ 59 ∧ s ≤ 59 then some ⟨d, h * 3600 + m * 60 + s⟩ else none

/-! ## The Europe/Paris timezone (chrono_tz::Europe::Paris)

chrono-tz compiles the IANA tz database into a fixed list of timespans
(UTC start instant, UTC offset).  `parisBase`/`parisTrans` below are
modelled from the tz database entry for Europe/Paris: the offset before
every listed transition is 561 seconds (LMT/PMT), and every pair
`(t, o)` means that from UTC second `t` on, local time is UTC + `o`
seconds; the recurring EU rule is extrapolated through the year 2100 the
way the generated chrono-tz table does, and the final timespan extends
indefinitely. -/

/-- UTC offset, in seconds, before the first listed Paris transition. -/
def parisBase : Int := 561

/-- The Europe/Paris transitions: `(UTC second of the transition, new UTC
offset in seconds)`, in increasing order of instant. -/
def parisTrans : List (Int × Int) := [
  (-2486592561, 561), (-1855958961, 0), (-1689814800, 3600), (-1680397200, 0),
  (-1665363600, 3600), (-1648342800, 0), (-1635123600, 3600), (-1616893200, 0),
  (-1604278800, 3600), (-1585443600, 0), (-1574038800, 3600), (-1552266000, 0),
  (-1539997200, 3600), (-1520557200, 0), (-1507510800, 3600), (-1490576400, 0),
  (-1470618000, 3600), (-1459126800, 0), (-1444006800, 3600), (-1427677200, 0),
  (-1411952400, 3600), (-1396227600, 0), (-1379293200, 3600), (-1364778000, 0),
  (-1348448400, 3600), (-1333328400, 0), (-1316394000, 3600), (-1301274000, 0),
  (-1284339600, 3600), (-1269824400, 0), (-1253494800, 3600), (-1238374800, 0),
  (-1221440400, 3600), (-1206925200, 0), (-1191200400, 3600), (-1175475600, 0),
  (-1160355600, 3600), (-1143421200, 0), (-1127696400, 3600), (-1111971600, 0),
  (-1096851600, 3600), (-1080522000, 0), (-1063587600, 3600), (-1049072400, 0),
  (-1033347600, 3600), (-1017622800, 0), (-1002502800, 3600), (-986173200, 0),
  (-969238800, 3600), (-950490000, 0), (-942012000, 3600), (-932436000, 7200),
  (-857257200, 3600), (-844556400, 7200), (-828226800, 3600), (-812502000, 7200),
  (-800071200, 7200), (-796266000, 3600), (-781052400, 7200), (-766623600, 3600),
  (196819200, 7200), (212540400, 3600), (228877200, 7200), (243997200, 3600),
  (260326800, 7200), (276051600, 3600), (291776400, 7200), (307501200, 3600),
  (323830800, 7200), (338950800, 3600), (354675600, 7200), (370400400, 3600),
  (386125200, 7200), (401850000, 3600), (417574800, 7200), (433299600, 3600),
  (449024400, 7200), (465354000, 3600), (481078800, 7200), (496803600, 3600),
  (512528400, 7200), (528253200, 3600), (543978000, 7200), (559702800, 3600),
  (575427600, 7200), (591152400, 3600), (606877200, 7200), (622602000, 3600),
  (638326800, 7200), (654656400, 3600), (670381200, 7200), (686106000, 3600),
  (701830800, 7200), (717555600, 3600), (733280400, 7200), (749005200, 3600),
  (764730000, 7200), (780454800, 3600), (796179600, 7200), (811904400, 3600),
  (828234000, 7200), (846378000, 3600), (859683600, 7200), (877827600, 3600),
  (891133200, 7200), (909277200, 3600), (922582800, 7200), (941331600, 3600),
  (954032400, 7200), (972781200, 3600), (985482000, 7200), (1004230800, 3600),
  (1017536400, 7200), (1035680400, 3600), (1048986000, 7200), (1067130000, 3600),
  (1080435600, 7200), (1099184400, 3600), (1111885200, 7200), (1130634000, 3600),
  (1143334800, 7200), (1162083600, 3600), (1174784400, 7200), (1193533200, 3600),
  (1206838800, 7200), (1224982800, 3600), (1238288400, 7200), (1256432400, 3600),
  (1269738000, 7200), (1288486800, 3600), (1301187600, 7200), (1319936400, 3600),
  (1332637200, 7200), (1351386000, 3600), (1364691600, 7200), (1382835600, 3600),
  (1396141200, 7200), (1414285200, 3600), (1427590800, 7200), (1445734800, 3600),
  (1459040400, 7200), (1477789200, 3600), (1490490000, 7200), (1509238800, 3600),
  (1521939600, 7200), (1540688400, 3600), (1553994000, 7200), (1572138000, 3600),
  (1585443600, 7200), (1603587600, 3600), (1616893200, 7200), (1635642000, 3600),
  (1648342800, 7200), (1667091600, 3600), (1679792400, 7200), (1698541200, 3600),
  (1711846800, 7200), (1729990800, 3600), (1743296400, 7200), (1761440400, 3600),
  (1774746000, 7200), (1792890000, 3600), (1806195600, 7200), (1824944400, 3600),
  (1837645200, 7200), (1856394000, 3600), (1869094800, 7200), (1887843600, 3600),
  (1901149200, 7200), (1919293200, 3600), (1932598800, 7200), (1950742800, 3600),
  (1964048400, 7200), (1982797200, 3600), (1995498000, 7200), (2014246800, 3600),
  (2026947600, 7200), (2045696400, 3600), (2058397200, 7200), (2077146000, 3600),
  (2090451600, 7200), (2108595600, 3600), (2121901200, 7200), (2140045200, 3600),
  (2153350800, 7200), (2172099600, 3600), (2184800400, 7200), (2203549200, 3600),
  (2216250000, 7200), (2234998800, 3600), (2248304400, 7200), (2266448400, 3600),
  (2279754000, 7200), (2297898000, 3600), (2311203600, 7200), (2329347600, 3600),
  (2342653200, 7200), (2361402000, 3600), (2374102800, 7200), (2392851600, 3600),
  (2405552400, 7200), (2424301200, 3600), (2437606800, 7200), (2455750800, 3600),
  (2469056400, 7200), (2487200400, 3600), (2500506000, 7200), (2519254800, 3600),
  (2531955600, 7200), (2550704400, 3600), (2563405200, 7200), (2582154000, 3600),
  (2595459600, 7200), (2613603600, 3600), (2626909200, 7200), (2645053200, 3600),
  (2658358800, 7200), (2676502800, 3600), (2689808400, 7200), (2708557200, 3600),
  (2721258000, 7200), (2740006800, 3600), (2752707600, 7200), (2771456400, 3600),
  (2784762000, 7200), (2802906000, 3600), (2816211600, 7200), (2834355600, 3600),
  (2847661200, 7200), (2866410000, 3600), (2879110800, 7200), (2897859600, 3600),
  (2910560400, 7200), (2929309200, 3600), (2942010000, 7200), (2960758800, 3600),
  (2974064400, 7200), (2992208400, 3600), (3005514000, 7200), (3023658000, 3600),
  (3036963600, 7200), (3055712400, 3600), (3068413200, 7200), (3087162000, 3600),
  (3099862800, 7200), (3118611600, 3600), (3131917200, 7200), (3150061200, 3600),
  (3163366800, 7200), (3181510800, 3600), (3194816400, 7200), (3212960400, 3600),
  (3226266000, 7200), (3245014800, 3600), (3257715600, 7200), (3276464400, 3600),
  (3289165200, 7200), (3307914000, 3600), (3321219600, 7200), (3339363600, 3600),
  (3352669200, 7200), (3370813200, 3600), (3384118800, 7200), (3402867600, 3600),
  (3415568400, 7200), (3434317200, 3600), (3447018000, 7200), (3465766800, 3600),
  (3479072400, 7200), (3497216400, 3600), (3510522000, 7200), (3528666000, 3600),
  (3541971600, 7200), (3560115600, 3600), (3573421200, 7200), (3592170000, 3600),
  (3604870800, 7200), (3623619600, 3600), (3636320400, 7200), (3655069200, 3600),
  (3668374800, 7200), (3686518800, 3600), (3699824400, 7200), (3717968400, 3600),
  (3731274000, 7200), (3750022800, 3600), (3762723600, 7200), (3781472400, 3600),
  (3794173200, 7200), (3812922000, 3600), (3825622800, 7200), (3844371600, 3600),
  (3857677200, 7200), (3875821200, 3600), (3889126800, 7200), (3907270800, 3600),
  (3920576400, 7200), (3939325200, 3600), (3952026000, 7200), (3970774800, 3600),
  (3983475600, 7200), (4002224400, 3600), (4015530000, 7200), (4033674000, 3600),
  (4046979600, 7200), (4065123600, 3600), (4078429200, 7200), (4096573200, 3600),
  (4109878800, 7200), (4128627600, 3600)]

/-- Does the lower bound of a timespan admit local second `l`?  `low` is
the UTC start of the span (`none` for the initial, unbounded span) and
`off` its UTC offset. -/
def lowOk (low : Option Int) (off l : Int) : Bool :=
  match low with
  | none => true
  | some a => decide (a + off ≤ l)

/-- The UTC offsets of every timespan of the table whose local-time
interval contains local second `l` — the candidate interpretations that
`TimeZone::from_local_datetime` finds for a local datetime.  `curOff` is
the offset of the current span and `low` its UTC start. -/
def offsetsFrom (curOff : Int) (low : Option Int) : List (Int × Int) → Int → List Int
  | [], l => if lowOk low curOff l then [curOff] else []
  | (t, o) :: rest, l =>
      (if lowOk low curOff l && decide (l < t + curOff) then [curOff] else []) ++
      offsetsFrom o (some t) rest l

/-- The number of timespans whose local interval contains local second
`l`: 0 means the local time does not exist (spring-forward gap), 1 means
a single instant, 2 means an ambiguous (fall-back) local time. -/
def countFrom (curOff : Int) (low : Option Int) : List (Int × Int) → Int → Nat
  | [], l => if lowOk low curOff l then 1 else 0
  | (t, o) :: rest, l =>
      (if lowOk low curOff l && decide (l < t + curOff) then 1 else 0) +
      countFrom o (some t) rest l

/-- Candidate UTC offsets for a Paris local time given as seconds since
the local epoch. -/
def parisOffsetsAt (l : Int) : List Int :=
  offsetsFrom parisBase none parisTrans l

/-- Model of `Paris.from_local_datetime(..).unwrap()` as used in the merge
branch of `create_journal_entry`: `some utcSeconds` when the local
datetime has a single interpretation, `none` when the `LocalResult` is
`None` or `Ambiguous` — in which case the real `unwrap()` panics. -/
def parisFromLocal (ndt : NaiveDateTime) : Option Int :=
  let l : Int := 86400 * ndt.date.toDays + Int.ofNat ndt.secondsOfDay
  match parisOffsetsAt l with
  | [o] => some (l - o)
  | _ => none

/-- The local-midnight-in-Paris conversion performed by the merge branch:
`json.date.and_hms_opt(0, 0, 0).unwrap()` followed by
`Paris.from_local_datetime(..).unwrap()`; `none` models a panic of either
`unwrap`. -/
def parisLocalMidnight (d : NaiveDate) : Option Int :=
  (d.and_hms_opt 0 0 0).bind parisFromLocal

/-! ## BSON values and the `entries` collection -/

/-- The BSON values that can appear in the `date` field of a stored
document or of a filter: serde serializes a `NaiveDate` to a BSON string,
while `doc! { "date": <chrono DateTime> }` produces a BSON datetime
(milliseconds since the epoch).  Distinct constructors are distinct BSON
types and never compare equal in MongoDB. -/
inductive BsonValue where
  | string (s : String)
  | dateTime (millis : Int)
deriving DecidableEq, Repr

/-- The persisted/returned record of `routes.rs` (`struct JournalEntry`).
`rate` is an `f32` in the source; it is modelled as a rational number —
no arithmetic is ever performed on it, it is only stored and copied. -/
structure JournalEntry where
  date : NaiveDate
  rate : Rat
  short_summary : String
deriving DecidableEq, Repr

/-- A document of the `entries` collection as `insert_one` persists it:
serde serialization of `JournalEntry` turns the `date` field into a BSON
value (a string for `NaiveDate`). -/
structure StoredDoc where
  date : BsonValue
  rate : Rat
  short_summary : String
deriving DecidableEq, Repr

/-- Serde serialization of a `JournalEntry` into the stored document:
`NaiveDate` serializes as its ISO 8601 string. -/
def toStoredDoc (e : JournalEntry) : StoredDoc :=
  { date := BsonValue.string (formatDate e.date)
    rate := e.rate
    short_summary := e.short_summary }

/-- The `entries` collection, in insertion order. -/
abbrev Storage : Type := List StoredDoc

/-- MongoDB driver errors: the duplicate-key violation of the unique
index on `date` created in `app()`, or any other storage/transport
fault. -/
inductive MongoError where
  | duplicateKey
  | other (msg : String)
deriving DecidableEq, Repr

/-- Model of `Collection::insert_one` under the unique index on `date`
built in `app()` (`main.rs`): a transport fault (if injected by the
environment) fails the call; otherwise inserting a document whose `date`
equals a stored document's `date` fails with the duplicate-key error, and
any other document is appended. -/
def insertOne (st : Storage) (d : StoredDoc) (fault : Option MongoError) :
    Except MongoError Storage :=
  match fault with
  | some e => .error e
  | none =>
      if (st : List StoredDoc).any (fun x => decide (x.date = d.date)) then
        .error .duplicateKey
      else
        .ok (st ++ [d])

/-- The effect of `update_one(filter, { $set: { short_summary, rate } })`
on the document list: the first document whose `date` equals the filter
value gets its `rate` and `short_summary` replaced; all other documents
are untouched. -/
def updateFirst : List StoredDoc → BsonValue → Rat → String → List StoredDoc
  | [], _, _, _ => []
  | x :: xs, f, r, s =>
      if x.date = f then { x with rate := r, short_summary := s } :: xs
      else x :: updateFirst xs f r s

/-- Model of `Collection::update_one` with a `{ "date": v }` filter and a
`$set` of `short_summary` and `rate`: a transport fault fails the call;
otherwise the call succeeds whether or not any document matched. -/
def updateOne (st : Storage) (filter : BsonValue) (r : Rat) (s : String)
    (fault : Option MongoError) : Except MongoError Storage :=
  match fault with
  | some e => .error e
  | none => .ok (updateFirst st filter r s)

/-- Removal of the first document whose `date` equals the filter value
(the effect of `delete_one`). -/
def deleteFirst : List StoredDoc → BsonValue → List StoredDoc
  | [], _ => []
  | x :: xs, f => if x.date = f then xs else x :: deleteFirst xs f

/-- Model of `Collection::delete_one` with a `{ "date": v }` filter: a
transport fault fails the call; otherwise it succeeds whether or not any
document matched. -/
def deleteOne (st : Storage) (filter : BsonValue) (fault : Option MongoError) :
    Except MongoError Storage :=
  match fault with
  | some e => .error e
  | none => .ok (deleteFirst st filter)

/-! ## The chat completion request (async_openai) -/

/-- A chat message of the completion request: the system or user role
with its text content. -/
inductive ChatMessage where
  | system (content : String)
  | user (content : String)
deriving DecidableEq, Repr

/-- Modelled from the spec: the fixed system instruction loaded verbatim
at compile time from the external asset `journal_entry_message.txt`
(`include_str!` in `routes.rs`); the asset file itself is not under
`src/`, and no claim depends on its exact text, so it is modelled as an
opaque constant string. -/
def journal_entry_message : String :=
  "fixed system instruction from journal_entry_message.txt"

/-- The content of the first choice of a chat response, if any
(`response.choices.get(0).map(|o| o.message.clone().content).flatten()`). -/
structure ChatChoiceMessage where
  content : Option String
deriving DecidableEq, Repr

/-- One choice of the chat completion response. -/
structure ChatChoice where
  message : ChatChoiceMessage
deriving DecidableEq, Repr

/-- The chat completion response: a list of choices. -/
structure ChatResponse where
  choices : List ChatChoice
deriving DecidableEq, Repr

/-- The chat completion request built by `create_journal_entry`: the model
identifier, the ordered message list, and the number of requested
completions (`.n(1)`). -/
structure ChatRequest where
  model : String
  messages : List ChatMessage
  n : Nat
deriving DecidableEq, Repr

/-- The request construction of `create_journal_entry` (`routes.rs` lines
58–74): a system message holding the external asset verbatim, a user
message formatted by `format!` from the request fields with the date
displayed by `NaiveDate`'s `Display`, model `gpt-3.5-turbo`, one
completion requested.  The three `async_openai` builders can only fail
when a required field is missing; every field is supplied here, so the
builders are modelled as total. -/
def buildChatRequest (name : String) (date : NaiveDate) (summary : String) :
    ChatRequest :=
  let entry_message := ChatMessage.system journal_entry_message
  let user_message :=
    ChatMessage.user (name ++ " (" ++ formatDate date ++ "): " ++ summary)
  { model := "gpt-3.5-turbo"
    messages := [entry_message, user_message]
    n := 1 }

/-- `response.choices.get(0).map(|o| o.message.clone().content).flatten()`:
`none` when there are zero choices or the first choice carries no text. -/
def firstChoiceContent (r : ChatResponse) : Option String :=
  ((r.choices.get? 0).map (fun c => c.message.content)).join

/-! ## The POST / handler (`create_journal_entry`) -/

/-- The POST request body of `routes.rs` (`struct CreateJournalEntry`):
`name`, `summary` and `date` are all plain (non-`Option`) fields. -/
structure CreateJournalEntry where
  name : String
  summary : String
  date : NaiveDate
deriving DecidableEq, Repr

/-- Model of the derived serde `Deserialize` for `CreateJournalEntry`:
every field is required (none is an `Option` and none carries a serde
`default`), so deserialization succeeds exactly when all three fields are
present in the body. -/
def CreateJournalEntry.deserialize (name summary : Option String)
    (date : Option NaiveDate) : Option CreateJournalEntry :=
  match name, summary, date with
  | some n, some s, some d => some ⟨n, s, d⟩
  | _, _, _ => none

/-- The error enum of the POST handler (`enum CreateJournalEntryError`). -/
inductive CreateJournalEntryError where
  | openAI (msg : String)
  | noOutput
  | serialization (msg : String)
  | mongo (e : MongoError)
deriving DecidableEq, Repr

/-- The HTTP status attached to each error variant by the `#[status]`
attributes in `routes.rs`: every variant is `INTERNAL_SERVER_ERROR`. -/
def CreateJournalEntryError.status : CreateJournalEntryError → Nat
  | .openAI _ => 500
  | .noOutput => 500
  | .serialization _ => 500
  | .mongo _ => 500

/-- The HTTP status of the handler result: 200 for `Ok(Json(..))`, the
variant's status for an error. -/
def createResponseStatus (r : Except CreateJournalEntryError JournalEntry) : Nat :=
  match r with
  | .ok _ => 200
  | .error e => e.status

/-- The external capabilities consumed by one POST request: the remote
chat service (`Client::new().chat().create(..)`), the serde_json parser
(`serde_json::from_str::<JournalEntry>`), and fault injection for the two
storage calls (`none` = the driver call reaches storage). -/
structure Env where
  chat : ChatRequest → Except String ChatResponse
  parse : String → Except String JournalEntry
  insertFault : Option MongoError
  updateFault : Option MongoError

/-- The merge-branch filter value: `doc! { "date": date }` where `date`
is the Paris midnight `DateTime<Tz>`; the bson conversion of a chrono
datetime yields a BSON datetime in milliseconds. -/
def mergeFilterValue (utcSeconds : Int) : BsonValue :=
  BsonValue.dateTime (1000 * utcSeconds)

/-- Shallow embedding of the POST handler `create_journal_entry`
(`routes.rs` lines 50–113), faithful to the source control flow:
chat-service failure, empty output and parse failure each end the request
with the corresponding error variant before any storage call; the insert
is attempted, and on `Err(_)` — any insert error whatsoever — the merge
branch converts the parsed date to Paris midnight (two `unwrap`s, a panic
modelled as `none`) and issues `update_one`, whose failure is the only
storage error ever surfaced; on success of either branch the handler
returns `Ok(Json(json))` with the parsed entry.  The returned pair is
(handler result, collection contents afterwards). -/
def create_journal_entry (env : Env) (st : Storage)
    (req : CreateJournalEntry) :
    Option (Except CreateJournalEntryError JournalEntry × Storage) :=
  let completion_request := buildChatRequest req.name req.date req.summary
  match env.chat completion_request with
  | .error e => some (.error (.openAI e), st)
  | .ok response =>
    match firstChoiceContent response with
    | none => some (.error .noOutput, st)
    | some content =>
      match env.parse content with
      | .error e => some (.error (.serialization e), st)
      | .ok json =>
        match insertOne st (toStoredDoc json) env.insertFault with
        | .ok inserted => some (.ok json, inserted)
        | .error _ =>
          match parisLocalMidnight json.date with
          | none => none
          | some utcSeconds =>
            match updateOne st (mergeFilterValue utcSeconds) json.rate
                json.short_summary env.updateFault with
            | .ok updated => some (.ok json, updated)
            | .error e => some (.error (.mongo e), st)

/-! ## The DELETE / handler (`delete_journal_entry`) -/

/-- The DELETE request body (`struct DeleteJournalEntry`). -/
structure DeleteJournalEntry where
  date : NaiveDate
deriving DecidableEq, Repr

/-- The error enum of the DELETE handler; both variants map to 500 via
their `#[status]` attributes.  `bson` wraps `bson::to_document` failures,
which cannot occur for this struct. -/
inductive DeleteJournalEntryError where
  | bson (msg : String)
  | mongo (e : MongoError)
deriving DecidableEq, Repr

/-- The HTTP status of the DELETE handler result: 200 with an empty body
for `Ok(())`, 500 for either error variant. -/
def deleteResponseStatus (r : Except DeleteJournalEntryError Unit) : Nat :=
  match r with
  | .ok _ => 200
  | .error _ => 500

/-- Shallow embedding of the DELETE handler `delete_journal_entry`
(`routes.rs` lines 151–164): `bson::to_document(&payload)` serializes the
body into the filter `{ "date": <ISO string> }` (serde turns `NaiveDate`
into a BSON string; this serialization is total for this struct), the
`delete_one` result count is discarded, and the handler returns `Ok(())`
unless the driver reports a fault. -/
def delete_journal_entry (st : Storage) (payload : DeleteJournalEntry)
    (fault : Option MongoError) :
    Except DeleteJournalEntryError Unit × Storage :=
  let filter := BsonValue.string (formatDate payload.date)
  match deleteOne st filter fault with
  | .ok remaining => (.ok (), remaining)
  | .error e => (.error (.mongo e), st)

/-! ## Sequences of requests -/

/-- The collection contents after a sequence of POST requests, each with
its own external environment, starting from a given state; a request that
panics (modelled `none`) leaves the collection as it was. -/
def runCreates : List (Env × CreateJournalEntry) → Storage → Storage
  | [], st => st
  | (env, req) :: rest, st =>
      runCreates rest
        (match create_journal_entry env st req with
         | some (_, st') => st'
         | none => st)

/-- Distinctness of the `date` field across the collection — the
uniqueness invariant maintained by the unique index. -/
def DistinctDates (st : Storage) : Prop :=
  ((st : List StoredDoc).map (fun x => x.date)).Pairwise (fun a b => a ≠ b)

/-! ## Local-midnight analysis of the transition table -/

/-- The smallest multiple of 86400 that is at least `a`. -/
def firstMultipleGE (a : Int) : Int :=
  86400 * (-(-a / 86400))

/-- A transition at UTC second `t` from offset `o1` to offset `o2` is
harmless for local midnights outside the exception list `ex`: the local
interval `[t + min o1 o2, t + max o1 o2)` that the transition skips or
repeats contains no local midnight, except possibly the midnight of a day
listed in `ex`. -/
def junctionOk (ex : List Int) (t o1 o2 : Int) : Bool :=
  let lo := t + min o1 o2
  let hi := t + max o1 o2
  let m := firstMultipleGE lo
  decide (hi ≤ m) || (decide (hi ≤ m + 86400) && decide (m / 86400 ∈ ex))

/-- Every junction of the table is harmless outside `ex`, and consecutive
transitions are far enough apart that their local intervals stay in
order. -/
def chainOk (ex : List Int) : Int → List (Int × Int) → Bool
  | _, [] => true
  | o1, (t, o2) :: rest =>
      junctionOk ex t o1 o2 &&
      (match rest with
       | [] => true
       | (t2, o3) :: _ => decide (t + max o1 o2 ≤ t2 + min o2 o3)) &&
      chainOk ex o2 rest

/-! ## Concrete fixtures (spec section 8, Scenarios A and B) -/

/-- Scenario date: 2024-03-01. -/
def dateA : NaiveDate := ⟨2024, 3, 1⟩

/-- The entry generated for the first Scenario request. -/
def entryA : JournalEntry := ⟨dateA, 8 / 10, "Productive day"⟩

/-- The entry generated for the second (same-date) Scenario request. -/
def entryB : JournalEntry := ⟨dateA, 3 / 10, "Tired, revised"⟩

/-- The Scenario request body. -/
def reqA : CreateJournalEntry := ⟨"Ana", "Felt productive", dateA⟩

/-- A chat response with a single choice carrying the given text. -/
def chatRespOf (s : String) : ChatResponse := ⟨[⟨⟨some s⟩⟩]⟩

/-- A chat capability that answers every request with one choice. -/
def okChat (s : String) : ChatRequest → Except String ChatResponse :=
  fun _ => .ok (chatRespOf s)

/-- Environment for the first Scenario request: completion parses to
`entryA`, storage healthy. -/
def envA : Env := ⟨okChat "outA", fun _ => .ok entryA, none, none⟩

/-- Environment for the second Scenario request: completion parses to
`entryB`, storage healthy. -/
def envB : Env := ⟨okChat "outB", fun _ => .ok entryB, none, none⟩

/-- Environment in which the insert fails with a transport fault that is
not a duplicate-key conflict. -/
def envFault : Env :=
  ⟨okChat "outA", fun _ => .ok entryA,
    some (.other "connection reset by peer"), none⟩

/-- A chat response with zero choices. -/
def respEmpty : ChatResponse := ⟨[]⟩

/-- Environment whose chat service returns zero choices. -/
def envEmpty : Env := ⟨fun _ => .ok respEmpty, fun _ => .ok entryA, none, none⟩

/-- Environment whose completion text does not parse as a `JournalEntry`. -/
def envBadParse : Env :=
  ⟨okChat "not json", fun _ => .error "expected struct JournalEntry", none, none⟩

theorem junctionOk_sound {ex : List Int} {t o1 o2 : Int}
    (h : junctionOk ex t o1 o2 = true) {d : Int} (hd : d ∉ ex) :
    ¬ (t + min o1 o2 ≤ 86400 * d ∧ 86400 * d < t + max o1 o2) := by
  rintro ⟨h1, h2⟩
  simp only [junctionOk, firstMultipleGE, Bool.or_eq_true, Bool.and_eq_true,
    decide_eq_true_eq] at h
  rcases h with h | ⟨h, hmem⟩
  · omega
  · have hne : d ≠ 86400 * (-(-(t + min o1 o2) / 86400)) / 86400 :=
      fun he => hd (he ▸ hmem)
    omega

theorem countFrom_eq_zero {ex : List Int} :
    ∀ (ts : List (Int × Int)) (curOff a l : Int),
      chainOk ex curOff ts = true →
      l < a + curOff →
      (∀ t2 o2 rest2, ts = (t2, o2) :: rest2 → a + curOff ≤ t2 + o2) →
      countFrom curOff (some a) ts l = 0
  | [], curOff, a, l, _, hlt, _ => by
      simp only [countFrom, lowOk, decide_eq_true_eq]
      rw [if_neg (by omega)]
  | (t2, o2) :: rest, curOff, a, l, hchain, hlt, hside => by
      simp only [chainOk, Bool.and_eq_true] at hchain
      obtain ⟨⟨hJ, hlink⟩, hrest⟩ := hchain
      have ha2 : a + curOff ≤ t2 + o2 := hside t2 o2 rest rfl
      have hfirst : lowOk (some a) curOff l = false := by
        simp only [lowOk, decide_eq_false_iff_not]
        omega
      have hrec : countFrom o2 (some t2) rest l = 0 := by
        refine countFrom_eq_zero rest o2 t2 l hrest (by omega) ?_
        intro t3 o3 rest3 heq
        subst heq
        have hl2 := of_decide_eq_true hlink
        omega
      simp [countFrom, hfirst, hrec]

theorem countFrom_eq_one {ex : List Int} :
    ∀ (ts : List (Int × Int)) (curOff : Int) (low : Option Int) (d : Int),
      chainOk ex curOff ts = true →
      d ∉ ex →
      lowOk low curOff (86400 * d) = true →
      countFrom curOff low ts (86400 * d) = 1
  | [], curOff, low, d, _, _, hlow => by
      simp [countFrom, hlow]
  | (t, o) :: rest, curOff, low, d, hchain, hd, hlow => by
      simp only [chainOk, Bool.and_eq_true] at hchain
      obtain ⟨⟨hJ, hlink⟩, hrest⟩ := hchain
      have hsound := junctionOk_sound hJ hd
      by_cases hlt : 86400 * d < t + curOff
      · have hltmin : 86400 * d < t + min curOff o := by
          by_contra hge2
          exact hsound ⟨by omega, by omega⟩
        have hzero : countFrom o (some t) rest (86400 * d) = 0 := by
          refine countFrom_eq_zero rest o t (86400 * d) hrest (by omega) ?_
          intro t3 o3 rest3 heq
          subst heq
          have hl2 := of_decide_eq_true hlink
          omega
        simp [countFrom, hlow, hlt, hzero]
      · have hge : t + max curOff o ≤ 86400 * d := by
          by_contra hlt2
          exact hsound ⟨by omega, by omega⟩
        have hlow2 : lowOk (some t) o (86400 * d) = true := by
          simp only [lowOk, decide_eq_true_eq]
          omega
        have hone := countFrom_eq_one rest o (some t) d hrest hd hlow2
        simp [countFrom, hlt, hone]

theorem offsetsFrom_length :
    ∀ (ts : List (Int × Int)) (curOff : Int) (low : Option Int) (l : Int),
      (offsetsFrom curOff low ts l).length = countFrom curOff low ts l
  | [], curOff, low, l => by
      by_cases h : lowOk low curOff l = true <;>
        simp [offsetsFrom, countFrom, h]
  | (t, o) :: rest, curOff, low, l => by
      have ih := offsetsFrom_length rest o (some t) l
      by_cases h : (lowOk low curOff l && decide (l < t + curOff)) = true
      · simp only [offsetsFrom, countFrom, h, if_true, List.length_append,
          List.length_cons, List.length_nil, ih]
      · simp [offsetsFrom, countFrom, h, ih]

/-- The concrete Europe/Paris table satisfies the chain conditions, with
exactly two excepted local midnights: epoch day -9216 (1944-10-08, the
end of wartime double summer time) and epoch day 2460 (1976-09-26, the
end of the 1976 summer time), both of which set clocks back from 01:00 to
00:00 local time. -/
theorem parisChainOk : chainOk [-9216, 2460] parisBase parisTrans = true := by
  decide

theorem paris_countFrom_midnight {d : Int} (h1 : d ≠ -9216) (h2 : d ≠ 2460) :
    countFrom parisBase none parisTrans (86400 * d) = 1 :=
  countFrom_eq_one parisTrans parisBase none d parisChainOk
    (by simp [h1, h2]) rfl

/-- Outside the two exceptional days, the Paris local midnight of any
epoch day has a unique UTC interpretation, so the modelled
`from_local_datetime(..).unwrap()` does not panic there. -/
theorem parisLocalMidnight_isSome {d : NaiveDate}
    (h1 : d.toDays ≠ -9216) (h2 : d.toDays ≠ 2460) :
    (parisLocalMidnight d).isSome = true := by
  have hcount := paris_countFrom_midnight h1 h2
  have hlen : (parisOffsetsAt (86400 * d.toDays)).length = 1 := by
    rw [parisOffsetsAt, offsetsFrom_length]
    exact hcount
  obtain ⟨o, ho⟩ := List.length_eq_one.mp hlen
  have handm : d.and_hms_opt 0 0 0 = some ⟨d, 0⟩ := by
    simp [NaiveDate.and_hms_opt]
  have hfl : parisFromLocal ⟨d, 0⟩ = some (86400 * d.toDays - o) := by
    have hz : 86400 * d.toDays + Int.ofNat 0 = 86400 * d.toDays := by simp
    simp only [parisFromLocal, hz]
    rw [ho]
  rw [parisLocalMidnight, handm, Option.some_bind, hfl]
  rfl

/-! ## Storage helper lemmas -/

theorem updateFirst_map_date :
    ∀ (st : List StoredDoc) (f : BsonValue) (r : Rat) (s : String),
      (updateFirst st f r s).map (fun x => x.date) = st.map (fun x => x.date)
  | [], _, _, _ => rfl
  | x :: xs, f, r, s => by
      by_cases h : x.date = f
      · simp [updateFirst, h]
      · simp [updateFirst, h, updateFirst_map_date xs f r s]

theorem updateFirst_no_match {st : List StoredDoc} {v : BsonValue}
    (r : Rat) (s : String) (h : ∀ x ∈ st, x.date ≠ v) :
    updateFirst st v r s = st := by
  induction st with
  | nil => rfl
  | cons x xs ih =>
      simp only [updateFirst]
      rw [if_neg (h x (List.mem_cons_self x xs))]
      rw [ih (fun y hy => h y (List.mem_cons_of_mem x hy))]

theorem deleteFirst_no_match {st : List StoredDoc} {v : BsonValue}
    (h : ∀ x ∈ st, x.date ≠ v) :
    deleteFirst st v = st := by
  induction st with
  | nil => rfl
  | cons x xs ih =>
      simp only [deleteFirst]
      rw [if_neg (h x (List.mem_cons_self x xs))]
      rw [ih (fun y hy => h y (List.mem_cons_of_mem x hy))]

theorem distinct_updateFirst {st : Storage} (h : DistinctDates st)
    (f : BsonValue) (r : Rat) (s : String) :
    DistinctDates (updateFirst st f r s) := by
  unfold DistinctDates at h ⊢
  rw [updateFirst_map_date]
  exact h

theorem distinct_append {st : Storage} (doc : StoredDoc) (h : DistinctDates st)
    (hnew : st.any (fun x => decide (x.date = doc.date)) = false) :
    DistinctDates (st ++ [doc]) := by
  unfold DistinctDates at h ⊢
  rw [List.map_append, List.pairwise_append]
  refine ⟨h, by simp, ?_⟩
  intro a ha b hb
  simp only [List.map_cons, List.map_nil, List.mem_singleton] at hb
  subst hb
  simp only [List.mem_map] at ha
  obtain ⟨x, hx, rfl⟩ := ha
  intro heq
  have hany : st.any (fun x => decide (x.date = doc.date)) = true :=
    List.any_eq_true.mpr ⟨x, hx, by simp [heq]⟩
  rw [hany] at hnew
  exact Bool.noConfusion hnew

theorem create_preserves_distinct (env : Env) (st : Storage)
    (req : CreateJournalEntry) (h : DistinctDates st) :
    DistinctDates (match create_journal_entry env st req with
                   | some (_, st2) => st2
                   | none => st) := by
  rcases hc : env.chat (buildChatRequest req.name req.date req.summary) with e | resp
  · simpa [create_journal_entry, hc] using h
  rcases hfc : firstChoiceContent resp with _ | content
  · simpa [create_journal_entry, hc, hfc] using h
  rcases hp : env.parse content with e | entry
  · simpa [create_journal_entry, hc, hfc, hp] using h
  rcases hif : env.insertFault with _ | ferr
  · by_cases hdup : st.any (fun x => decide (x.date = (toStoredDoc entry).date)) = true
    · rcases hm : parisLocalMidnight entry.date with _ | u
      · simpa [create_journal_entry, hc, hfc, hp, insertOne, hif, hdup, hm] using h
      rcases hu : env.updateFault with _ | uerr
      · simp only [create_journal_entry, hc, hfc, hp, insertOne, hif, hdup, hm,
          updateOne, hu, if_true]
        exact distinct_updateFirst h _ _ _
      · simpa [create_journal_entry, hc, hfc, hp, insertOne, hif, hdup, hm,
          updateOne, hu] using h
    · have hdup2 : st.any (fun x => decide (x.date = (toStoredDoc entry).date)) = false :=
        Bool.eq_false_iff.mpr hdup
      simp only [create_journal_entry, hc, hfc, hp, insertOne, hif, hdup2,
        Bool.false_eq_true, if_false]
      exact distinct_append _ h hdup2
  · rcases hm : parisLocalMidnight entry.date with _ | u
    · simpa [create_journal_entry, hc, hfc, hp, insertOne, hif, hm] using h
    rcases hu : env.updateFault with _ | uerr
    · simp only [create_journal_entry, hc, hfc, hp, insertOne, hif, hm,
        updateOne, hu]
      exact distinct_updateFirst h _ _ _
    · simpa [create_journal_entry, hc, hfc, hp, insertOne, hif, hm,
        updateOne, hu] using h

theorem runCreates_distinct :
    ∀ (steps : List (Env × CreateJournalEntry)) (st : Storage),
      DistinctDates st → DistinctDates (runCreates steps st)
  | [], _, h => h
  | (env, req) :: rest, st, h =>
      runCreates_distinct rest _ (create_preserves_distinct env st req h)

theorem distinct_filter_le_one {st : Storage} (h : DistinctDates st)
    (v : BsonValue) :
    (st.filter (fun x => decide (x.date = v))).length ≤ 1 := by
  induction st with
  | nil => simp
  | cons x xs ih =>
      unfold DistinctDates at h
      simp only [List.map_cons, List.pairwise_cons] at h
      obtain ⟨hx, hxs⟩ := h
      by_cases hv : x.date = v
      · have hnil : xs.filter (fun y => decide (y.date = v)) = [] := by
          refine List.filter_eq_nil_iff.mpr (fun y hy => ?_)
          simp only [decide_eq_true_eq]
          have := hx y.date (List.mem_map_of_mem _ hy)
          intro hcon
          exact this (by rw [hv, hcon])
        simp [List.filter_cons, hv, hnil]
      · simp only [List.filter_cons, decide_eq_true_eq, hv, if_false]
        exact ih hxs

/-! ## Claim theorems -/

/-- C1 (counterexample): the claim says a non-duplicate insert failure is
terminal and surfaced as a storage error; in the code the merge branch is
taken on `Err(_)` — any insert error.  Here the insert fails with a
transport fault (`other "connection reset by peer"`, not `duplicateKey`),
yet the request succeeds with the parsed entry and nothing persisted: the
insert error is swallowed and no storage error reaches the caller. -/
theorem c1_nonduplicate_insert_error_not_surfaced :
    create_journal_entry envFault [] reqA = some (.ok entryA, []) ∧
    envFault.insertFault = some (MongoError.other "connection reset by peer") ∧
    MongoError.other "connection reset by peer" ≠ MongoError.duplicateKey :=
  ⟨rfl, rfl, by decide⟩

/-- C1 (amended): the merge branch runs whenever the initial insert fails
with any error whatsoever — the insert error itself is discarded and never
inspected for `DuplicateKey`; a storage error is surfaced to the caller
only when the subsequent update also fails. -/
theorem c1_merge_on_any_insert_error
    (env : Env) (st : Storage) (req : CreateJournalEntry)
    (resp : ChatResponse) (content : String) (entry : JournalEntry)
    (err : MongoError) (u : Int)
    (hchat : env.chat (buildChatRequest req.name req.date req.summary) = .ok resp)
    (hfc : firstChoiceContent resp = some content)
    (hp : env.parse content = .ok entry)
    (hins : insertOne st (toStoredDoc entry) env.insertFault = .error err)
    (hmid : parisLocalMidnight entry.date = some u) :
    create_journal_entry env st req =
      match env.updateFault with
      | none => some (.ok entry,
          updateFirst st (mergeFilterValue u) entry.rate entry.short_summary)
      | some e2 => some (.error (.mongo e2), st) := by
  rcases hu : env.updateFault with _ | uerr <;>
    simp [create_journal_entry, hchat, hfc, hp, hins, hmid, updateOne, hu]

theorem c1_merge_on_any_insert_error_witness :
    create_journal_entry envFault [] reqA = some (.ok entryA, []) := by
  have h := c1_merge_on_any_insert_error envFault [] reqA (chatRespOf "outA")
    "outA" entryA (MongoError.other "connection reset by peer") 1709247600
    rfl rfl rfl rfl rfl
  exact h

/-- C2 (code bug, Scenario B of the spec): after two successful same-date
requests the claim says storage holds the second request's `rate` and
`short_summary`; in the code the merge filter is a BSON datetime while the
stored `date` is a BSON string, so the update matches nothing: the second
request reports success with the second entry as its body, yet storage
still holds the first entry's values. -/
theorem c2_second_request_values_not_stored :
    create_journal_entry envA [] reqA = some (.ok entryA, [toStoredDoc entryA]) ∧
    create_journal_entry envB [toStoredDoc entryA] reqA
      = some (.ok entryB, [toStoredDoc entryA]) ∧
    entryB.rate ≠ entryA.rate ∧
    entryB.short_summary ≠ entryA.short_summary :=
  ⟨rfl, rfl, by norm_num [entryA, entryB], by decide⟩

/-- C3: after any sequence of ingestion requests starting from empty
storage, at most one stored record carries the serialization of any given
date — the unique index admits an insert only when no stored document has
an equal `date`, and the merge path never changes a `date`. -/
theorem c3_at_most_one_record_per_date
    (steps : List (Env × CreateJournalEntry)) (d : NaiveDate) :
    ((runCreates steps []).filter
        (fun x => decide (x.date = BsonValue.string (formatDate d)))).length ≤ 1 :=
  distinct_filter_le_one
    (runCreates_distinct steps [] (by simp [DistinctDates])) _

/-- C4: fail-closed before persistence — when the chat service answers
with zero choices or a first choice with no content, the request fails
with `NoOutput`; when the completion text does not parse, it fails with
the serialization error; in both cases the collection is exactly the
input collection (no insert or update happened). -/
theorem c4_fail_closed_before_persistence
    (env : Env) (st : Storage) (req : CreateJournalEntry) (resp : ChatResponse)
    (hchat : env.chat (buildChatRequest req.name req.date req.summary) = .ok resp) :
    (firstChoiceContent resp = none →
      create_journal_entry env st req = some (.error .noOutput, st)) ∧
    (∀ content msg, firstChoiceContent resp = some content →
      env.parse content = .error msg →
      create_journal_entry env st req
        = some (.error (.serialization msg), st)) := by
  constructor
  · intro hfc
    simp [create_journal_entry, hchat, hfc]
  · intro content msg hfc hp
    simp [create_journal_entry, hchat, hfc, hp]

theorem c4_fail_closed_before_persistence_witness :
    create_journal_entry envEmpty [] reqA = some (.error .noOutput, []) ∧
    create_journal_entry envBadParse [] reqA
      = some (.error (.serialization "expected struct JournalEntry"), []) :=
  ⟨(c4_fail_closed_before_persistence envEmpty [] reqA respEmpty rfl).1 rfl,
   (c4_fail_closed_before_persistence envBadParse [] reqA
      (chatRespOf "not json") rfl).2 "not json" "expected struct JournalEntry"
      rfl rfl⟩

/-- C5: on success of the insert path, or of the merge path after an
insert error, the handler returns `Ok` with the entry produced by parsing
the model output (never re-read from storage), and the HTTP status is
200; a merged conflict is not reported as an error. -/
theorem c5_success_returns_parsed_entry
    (env : Env) (st : Storage) (req : CreateJournalEntry) (resp : ChatResponse)
    (content : String) (entry : JournalEntry)
    (hchat : env.chat (buildChatRequest req.name req.date req.summary) = .ok resp)
    (hfc : firstChoiceContent resp = some content)
    (hp : env.parse content = .ok entry) :
    (∀ st2, insertOne st (toStoredDoc entry) env.insertFault = .ok st2 →
      create_journal_entry env st req = some (.ok entry, st2) ∧
      createResponseStatus (.ok entry) = 200) ∧
    (∀ err u st3, insertOne st (toStoredDoc entry) env.insertFault = .error err →
      parisLocalMidnight entry.date = some u →
      updateOne st (mergeFilterValue u) entry.rate entry.short_summary
          env.updateFault = .ok st3 →
      create_journal_entry env st req = some (.ok entry, st3) ∧
      createResponseStatus (.ok entry) = 200) := by
  constructor
  · intro st2 hins
    exact ⟨by simp [create_journal_entry, hchat, hfc, hp, hins], rfl⟩
  · intro err u st3 hins hmid hupd
    exact ⟨by simp [create_journal_entry, hchat, hfc, hp, hins, hmid, hupd], rfl⟩

theorem c5_success_returns_parsed_entry_witness :
    (create_journal_entry envA [] reqA = some (.ok entryA, [toStoredDoc entryA]) ∧
      createResponseStatus (.ok entryA) = 200) ∧
    (create_journal_entry envB [toStoredDoc entryA] reqA
        = some (.ok entryB, [toStoredDoc entryA]) ∧
      createResponseStatus (.ok entryB) = 200) :=
  ⟨(c5_success_returns_parsed_entry envA [] reqA (chatRespOf "outA") "outA"
      entryA rfl rfl rfl).1 [toStoredDoc entryA] rfl,
   (c5_success_returns_parsed_entry envB [toStoredDoc entryA] reqA
      (chatRespOf "outB") "outB" entryB rfl rfl rfl).2
      MongoError.duplicateKey 1709247600 [toStoredDoc entryA] rfl rfl rfl⟩

/-- C6 (counterexample): the claim says a request omitting `date` is still
accepted with the date resolved server-side; in the code `date` is a
required field of `CreateJournalEntry`, so deserialization of a body with
`name` and `summary` but no `date` fails and the request is rejected. -/
theorem c6_missing_date_rejected :
    CreateJournalEntry.deserialize (some "Ana") (some "Felt productive") none
      = none := rfl

/-- C6 (amended): `date` is required in the POST body — every request
omitting it fails deserialization and never reaches the pipeline; no
server-side default to "now" is applied. -/
theorem c6_date_field_required (name summary : Option String) :
    CreateJournalEntry.deserialize name summary none = none := by
  cases name <;> cases summary <;> rfl

/-- C7: delete idempotence — for every date and storage the DELETE handler
succeeds (`Ok(())`, HTTP 200, empty body) whether or not a matching
record exists; when no stored document carries that date the collection is
unchanged, and repeating the delete is likewise a no-op success. -/
theorem c7_delete_idempotent (st : Storage) (d : NaiveDate) :
    (delete_journal_entry st ⟨d⟩ none).1 = .ok () ∧
    deleteResponseStatus (delete_journal_entry st ⟨d⟩ none).1 = 200 ∧
    ((∀ x ∈ st, x.date ≠ BsonValue.string (formatDate d)) →
      delete_journal_entry st ⟨d⟩ none = (.ok (), st) ∧
      delete_journal_entry (delete_journal_entry st ⟨d⟩ none).2 ⟨d⟩ none
        = (.ok (), st)) := by
  refine ⟨rfl, rfl, fun hmatch => ?_⟩
  have hdel : deleteFirst st (BsonValue.string (formatDate d)) = st :=
    deleteFirst_no_match hmatch
  constructor
  · simp [delete_journal_entry, deleteOne, hdel]
  · simp [delete_journal_entry, deleteOne, hdel]

theorem c7_delete_idempotent_witness :
    delete_journal_entry [] ⟨dateA⟩ none = (.ok (), []) ∧
    delete_journal_entry (delete_journal_entry [] ⟨dateA⟩ none).2 ⟨dateA⟩ none
      = (.ok (), []) :=
  (c7_delete_idempotent [] dateA).2.2 (by simp)

/-- C8: the completion request is exactly two ordered messages — the
fixed system instruction taken verbatim from the external asset, then a
user message equal to `name ++ " (" ++ date ++ "): " ++ summary` with the
date rendered by `NaiveDate`'s `Display` — and exactly one completion is
requested. -/
theorem c8_prompt_two_messages_one_completion (name : String)
    (date : NaiveDate) (summary : String) :
    (buildChatRequest name date summary).messages
      = [ChatMessage.system journal_entry_message,
         ChatMessage.user (name ++ " (" ++ formatDate date ++ "): " ++ summary)] ∧
    (buildChatRequest name date summary).n = 1 :=
  ⟨rfl, rfl⟩

/-- C9: the merge filter encodes the date as a BSON datetime (Paris
midnight in milliseconds) while `insert_one` stores the serde
serialization of `NaiveDate` (a BSON string); the two representations are
always distinct BSON values, so on any storage written by the insert path
the merge update matches no document. -/
theorem c9_merge_filter_never_matches_insert_format
    (e : JournalEntry) (u : Int) (r : Rat) (s : String) (st : Storage) :
    mergeFilterValue u ≠ (toStoredDoc e).date ∧
    ((∀ x ∈ st, ∃ ds, x.date = BsonValue.string ds) →
      updateFirst st (mergeFilterValue u) r s = st) := by
  constructor
  · simp [mergeFilterValue, toStoredDoc]
  · intro hfmt
    refine updateFirst_no_match r s (fun x hx => ?_)
    obtain ⟨ds, hds⟩ := hfmt x hx
    rw [hds]
    simp [mergeFilterValue]

theorem c9_merge_filter_never_matches_insert_format_witness :
    updateFirst [toStoredDoc entryA] (mergeFilterValue 1709247600)
      (3 / 10) "Tired, revised" = [toStoredDoc entryA] :=
  (c9_merge_filter_never_matches_insert_format entryA 1709247600 (3 / 10)
      "Tired, revised" [toStoredDoc entryA]).2
    (by
      intro x hx
      simp only [List.mem_singleton] at hx
      subst hx
      exact ⟨formatDate dateA, rfl⟩)

/-- C10 (counterexample): the claim says `from_local_datetime` on local
midnight always yields a single instant in Europe/Paris; on 1976-09-26
clocks went back from 01:00 to 00:00 local, so that midnight is ambiguous
(two candidate offsets, CEST then CET) and `unwrap()` panics. -/
theorem c10_midnight_ambiguous_1976_09_26 :
    parisLocalMidnight ⟨1976, 9, 26⟩ = none ∧
    parisOffsetsAt (86400 * NaiveDate.toDays ⟨1976, 9, 26⟩) = [7200, 3600] :=
  ⟨rfl, rfl⟩

/-- C10 (amended): the first `unwrap` never panics — midnight is always a
valid time of day; the second `unwrap` is panic-free for every date except
1944-10-08 (epoch day -9216) and 1976-09-26 (epoch day 2460), whose local
midnights are ambiguous because Europe/Paris ended wartime double summer
time, respectively the 1976 summer time, by setting clocks back from
01:00 to 00:00. -/
theorem c10_unwraps_panic_free_except_two_dates (d : NaiveDate) :
    (d.and_hms_opt 0 0 0).isSome = true ∧
    (d.toDays ≠ -9216 → d.toDays ≠ 2460 →
      (parisLocalMidnight d).isSome = true) :=
  ⟨by simp [NaiveDate.and_hms_opt], fun h1 h2 => parisLocalMidnight_isSome h1 h2⟩

theorem c10_unwraps_panic_free_except_two_dates_witness :
    (NaiveDate.and_hms_opt ⟨2024, 3, 1⟩ 0 0 0).isSome = true ∧
    (parisLocalMidnight ⟨2024, 3, 1⟩).isSome = true :=
  ⟨(c10_unwraps_panic_free_except_two_dates ⟨2024, 3, 1⟩).1,
   (c10_unwraps_panic_free_except_two_dates ⟨2024, 3, 1⟩).2
      (by decide) (by decide)⟩
